import Mathlib

/-!
Verification of the weather-forecast report generator (`main.py`).

The program fetches forecast payloads and renders, per location, an hourly
and a daily text report.  The core being verified is the dual-offset time
arithmetic (lines 85-90, 135-143, 162-165, 205-215 of the source), the
hourly aggregation loop (lines 154-192), the daily loop (lines 203-241),
and the rounding / unit-conversion helpers.

Modelling conventions:
* Unix timestamps and second offsets are `Int`.
* JSON numbers (temperatures, wind speeds) are `Rat`, an exact model of the
  decimal values the API delivers.
* Python's builtin `round` (round-half-to-even on a number) is `pyRound`.
* `datetime.fromtimestamp`, the host epoch-to-local-calendar primitive, is
  `datetimeFromTimestamp hostOffset t`: the civil decomposition of
  `t + hostOffset`, the fixed host offset standing for the host zone shift
  the primitive reapplies.
* Python list indexing is fallible (`Except`), so an out-of-range access in
  a loop surfaces as an `IndexError` value, exactly as the script raises.
-/

/-- Calendar fields produced by the host epoch-to-local-calendar primitive:
enough to render weekday name, day-of-month, month name, year, hour,
minute (and second).  `weekday` is 0 = Sunday .. 6 = Saturday. -/
structure DateTimeFields where
  year : Int
  month : Nat
  day : Nat
  weekday : Nat
  hour : Nat
  minute : Nat
  second : Nat
deriving Repr, DecidableEq

/-- Civil (proleptic Gregorian) date from a count of days since 1970-01-01,
the standard era-based decomposition algorithm. -/
def civilFromDays (z0 : Int) : Int × Nat × Nat :=
  let z := z0 + 719468
  let era : Int := z.fdiv 146097
  let doe : Nat := (z - era * 146097).toNat
  let yoe : Nat := (doe - doe / 1460 + doe / 36524 - doe / 146096) / 365
  let y : Int := (yoe : Int) + era * 400
  let doy : Nat := doe - (365 * yoe + yoe / 4 - yoe / 100)
  let mp : Nat := (5 * doy + 2) / 153
  let d : Nat := doy - (153 * mp + 2) / 5 + 1
  let m : Nat := if mp < 10 then mp + 3 else mp - 9
  (if m ≤ 2 then y + 1 else y, m, d)

/-- Model of Python's `datetime.fromtimestamp`: shift the epoch value by the
host's local offset, then decompose into calendar fields.  Day 0
(1970-01-01) was a Thursday, hence the `+ 4` in the weekday index. -/
def datetimeFromTimestamp (hostOffset : Int) (t : Int) : DateTimeFields :=
  let tl := t + hostOffset
  let days := tl.fdiv 86400
  let secs := (tl.emod 86400).toNat
  let ymd := civilFromDays days
  { year := ymd.1, month := ymd.2.1, day := ymd.2.2,
    weekday := ((days + 4).emod 7).toNat,
    hour := secs / 3600, minute := secs % 3600 / 60, second := secs % 60 }

/-- Zero-padded two-digit rendering, as `strftime` uses for `%H`, `%M`,
`%d`. -/
def pad2 (n : Nat) : String :=
  if n < 10 then "0" ++ toString n else toString n

/-- Space-padded day-of-month, as `strftime` renders `%e`. -/
def padSpace2 (n : Nat) : String :=
  if n < 10 then " " ++ toString n else toString n

/-- Right-aligned padding to a minimum width, as a Python format spec
`: >w` produces. -/
def padTo (w : Nat) (s : String) : String :=
  String.mk (List.replicate (w - s.length) ' ') ++ s

/-- `%a` weekday names, indexed 0 = Sunday. -/
def weekdayName (w : Nat) : String :=
  ["Sun", "Mon", "Tue", "Wed", "Thu", "Fri", "Sat"].getD w "Sun"

/-- `%B` month names, indexed 1 = January. -/
def monthName (m : Nat) : String :=
  ["January", "February", "March", "April", "May", "June", "July",
   "August", "September", "October", "November", "December"].getD (m - 1) "January"

/-- `strftime("%a %e %B %Y")` on decomposed fields. -/
def formatLongDate (f : DateTimeFields) : String :=
  weekdayName f.weekday ++ " " ++ padSpace2 f.day ++ " " ++ monthName f.month
    ++ " " ++ toString f.year

/-- `strftime("%H:%M")` on decomposed fields. -/
def formatHM (f : DateTimeFields) : String :=
  pad2 f.hour ++ ":" ++ pad2 f.minute

/-- `strftime("%a %e %B %Y, %H:%M")` on decomposed fields. -/
def formatLongDateTime (f : DateTimeFields) : String :=
  formatLongDate f ++ ", " ++ formatHM f

/-- Python's builtin `round` on a number: round half to even. -/
def pyRound (q : Rat) : Int :=
  let f := q.floor
  let r := q - f
  if r < 1 / 2 then f
  else if 1 / 2 < r then f + 1
  else if f % 2 = 0 then f else f + 1

/-- Source line 85: `SYSTEM_TIME_UTC_OFFSET = 3600`, the host's
standard-time (CET) offset from UTC in seconds. -/
def SYSTEM_TIME_UTC_OFFSET_base : Int := 3600

/-- Source lines 85-90: the initial constant, bumped by one hour when
`time.localtime().tm_isdst != 0`. -/
def systemTimeUtcOffset (tm_isdst : Int) : Int :=
  if tm_isdst ≠ 0 then SYSTEM_TIME_UTC_OFFSET_base + 3600
  else SYSTEM_TIME_UTC_OFFSET_base

/-- Source lines 162-164: the sequential reassignments of `location_time`
inside the hourly loop. -/
def hourly_location_time (tz host dt : Int) : Int :=
  let location_time := dt
  let location_time := location_time + tz
  let location_time := location_time - host
  location_time

/-- Source line 165: `datetime.fromtimestamp(location_time)`, decomposed
for `strftime("%a %e %B %Y, %H:%M")`. -/
def hourlyPrintTimeFields (tz host dt : Int) : DateTimeFields :=
  datetimeFromTimestamp host (hourly_location_time tz host dt)

/-- Source line 165: the formatted `print_time` string. -/
def print_time (tz host dt : Int) : String :=
  formatLongDateTime (hourlyPrintTimeFields tz host dt)

/-- Source lines 205-207: `print_date` fields for a daily sample. -/
def dailyPrintDateFields (tz host dt : Int) : DateTimeFields :=
  datetimeFromTimestamp host (dt + tz - host)

/-- Source lines 205-207: the formatted `print_date` string. -/
def print_date (tz host dt : Int) : String :=
  formatLongDate (dailyPrintDateFields tz host dt)

/-- Source lines 209-211: `print_sunrise` fields. -/
def dailySunriseFields (tz host sunrise : Int) : DateTimeFields :=
  datetimeFromTimestamp host (sunrise + tz - host)

/-- Source lines 209-211: the formatted `print_sunrise` string. -/
def print_sunrise (tz host sunrise : Int) : String :=
  formatHM (dailySunriseFields tz host sunrise)

/-- Source lines 213-215: `print_sunset` fields. -/
def dailySunsetFields (tz host sunset : Int) : DateTimeFields :=
  datetimeFromTimestamp host (sunset + tz - host)

/-- Source lines 213-215: the formatted `print_sunset` string. -/
def print_sunset (tz host sunset : Int) : String :=
  formatHM (dailySunsetFields tz host sunset)

/-- Runtime state outside the three conversion inputs: the host wall clock
reading and the DST flag the run sampled at startup. -/
structure World where
  nowHostLocalClock : Int
  tm_isdst : Int
deriving Repr, DecidableEq

/-- Time Resolver operation 1 as called by the renderer: the source
expression (lines 162-165) mentions only the sample timestamp, the payload
offset and the frozen host offset, so the ambient world is unused. -/
def toLocationLocalTime (_w : World) (utcTimestamp tz host : Int) : DateTimeFields :=
  hourlyPrintTimeFields tz host utcTimestamp

/-- Source line 135: `(timezone_offset - SYSTEM_TIME_UTC_OFFSET) / 3600`,
Python true division, hence an exact rational number of hours. -/
def locationTimeOffsetHours (tz host : Int) : Rat :=
  ((tz : Rat) - (host : Rat)) / 3600

/-- Source line 136: `datetime.now() + timedelta(hours=offset)`, as an
epoch value in the host's local representation; `timedelta(hours=x)` is
`x * 3600` seconds. -/
def generatedAtEpoch (nowHostLocal tz host : Int) : Rat :=
  (nowHostLocal : Rat) + locationTimeOffsetHours tz host * 3600

/-- `strftime("%H:%M")` on a host-local epoch value (no further shift: the
value already is in the host-local representation). -/
def renderHM (t : Int) : String :=
  formatHM (datetimeFromTimestamp 0 t)

/-- Source line 137: `files_generated_time`, the HH:MM header string. -/
def filesGeneratedTime (nowHostLocal tz host : Int) : String :=
  renderHM ⌊generatedAtEpoch nowHostLocal tz host⌋

/-- Source lines 140-143: singular "hour" exactly for a ±1-hour offset. -/
def UTC_hours_literal (tz : Int) : String :=
  if tz.natAbs = 3600 then "hour" else "hours"

/-- Source lines 151 and 200: `round(timezone_offset / 3600)`. -/
def utcOffsetNumber (tz : Int) : Int :=
  pyRound ((tz : Rat) / 3600)

/-- The `(UTC Offset: N hour[s])` fragment shared by both headings. -/
def utcOffsetFragment (tz : Int) : String :=
  "(UTC Offset: " ++ toString (utcOffsetNumber tz) ++ " "
    ++ UTC_hours_literal tz ++ ")"

/-- Source lines 150-151: the hourly report heading. -/
def hourlyHeading (place : String) (now tz host : Int) : String :=
  place ++ " Hourly Forecast.  Generated at " ++ filesGeneratedTime now tz host
    ++ " local time " ++ utcOffsetFragment tz ++ "\n\n"

/-- Source lines 199-200: the daily report heading. -/
def dailyHeading (place : String) (now tz host : Int) : String :=
  place ++ " Daily Forecast.  Generated at " ++ filesGeneratedTime now tz host
    ++ " local time " ++ utcOffsetFragment tz ++ "\n\n"

/-- Source lines 169 and 221: `round(wind_speed / 1000 * 3600)`. -/
def windKph (mps : Rat) : Int :=
  pyRound (mps / 1000 * 3600)

/-- One entry of the payload's `hourly` array (the fields the script
reads). -/
structure HourlySample where
  dt : Int
  temp : Rat
  feels_like : Rat
  wind_speed : Rat
  weather_id : Int
  description : String
deriving Repr, DecidableEq

/-- One entry of the payload's `daily` array (the fields the script
reads). -/
structure DailySample where
  dt : Int
  sunrise : Int
  sunset : Int
  temp_max : Rat
  temp_min : Rat
  temp_day : Rat
  temp_night : Rat
  temp_eve : Rat
  temp_morn : Rat
  fl_day : Rat
  fl_night : Rat
  fl_eve : Rat
  fl_morn : Rat
  wind_speed : Rat
  weather_id : Int
  description : String
deriving Repr, DecidableEq

/-- Source line 83: `HOURS = 48`. -/
def HOURS : Nat := 48

/-- Source line 84: `DAYS = 8`. -/
def DAYS : Nat := 8

/-- Fallible Python list indexing: raises `IndexError` out of range. -/
def pyIndex (l : List HourlySample) (i : Nat) : Except String HourlySample :=
  match l.get? i with
  | some s => Except.ok s
  | none => Except.error "IndexError: list index out of range"

/-- Fallible Python list indexing for the daily array. -/
def pyIndexDaily (l : List DailySample) (i : Nat) : Except String DailySample :=
  match l.get? i with
  | some s => Except.ok s
  | none => Except.error "IndexError: list index out of range"

/-- Source line 173 inner text: one hourly snapshot line. -/
def hourlySnapshotLine (s : HourlySample) : String :=
  "    Temperature " ++ padTo 2 (toString (pyRound s.temp))
    ++ "°C (feels like " ++ padTo 2 (toString (pyRound s.feels_like))
    ++ "°C), wind speed " ++ padTo 3 (toString (windKph s.wind_speed))
    ++ "kph, " ++ s.description ++ "\n\n"

/-- The mutable state of the hourly loop: accumulated output text, the
precipitation flag, and the running minimum / maximum temperatures. -/
structure HourlyState where
  out : String
  rain : Bool
  mn : Rat
  mx : Rat
deriving Repr, DecidableEq

/-- Source lines 161-183: one iteration of the hourly loop — write the
timestamp line and the snapshot line, then update the precipitation flag
and the running minimum / maximum by strict comparison. -/
def hourlyBody (tz host : Int) (s : HourlySample) (st : HourlyState) : HourlyState :=
  { out := st.out ++ print_time tz host s.dt ++ "\n" ++ hourlySnapshotLine s,
    rain := if s.weather_id < 700 then true else st.rain,
    mn := if s.temp < st.mn then s.temp else st.mn,
    mx := if s.temp > st.mx then s.temp else st.mx }

/-- Source line 159: `for i in range(0, HOURS)` with fallible indexing;
`fuel` counts the remaining iterations. -/
def hourlyLoopAux (tz host : Int) (hs : List HourlySample) :
    Nat → Nat → HourlyState → Except String HourlyState
  | _, 0, st => Except.ok st
  | i, Nat.succ fuel, st =>
    match pyIndex hs i with
    | Except.error e => Except.error e
    | Except.ok s => hourlyLoopAux tz host hs (i + 1) fuel (hourlyBody tz host s st)

/-- Source lines 154-183: initialize the summary state from sample 0
(lines 154-156), then run the 48-iteration loop. -/
def hourlyScan (tz host : Int) (hs : List HourlySample) : Except String HourlyState :=
  match pyIndex hs 0 with
  | Except.error e => Except.error e
  | Except.ok s0 =>
    hourlyLoopAux tz host hs 0 HOURS
      { out := "", rain := false, mn := s0.temp, mx := s0.temp }

/-- Source lines 189-192: the binary precipitation statement. -/
def precipLine (rain : Bool) : String :=
  if rain then "Rain (or snow) expected!\n" else "No rain expected!\n"

/-- Source lines 187-192: the summary block appended after the scan. -/
def summaryBlock (mn mx : Rat) (rain : Bool) : String :=
  "\n" ++ "Summary: Minimum temperature: " ++ toString (pyRound mn)
    ++ "°C, maximum " ++ toString (pyRound mx) ++ "°C, " ++ precipLine rain

/-- Source lines 145-192: the whole hourly report document for one
location, or the `IndexError` the script would raise. -/
def renderHourlyReport (place : String) (now tz host : Int)
    (hs : List HourlySample) : Except String String :=
  match hourlyScan tz host hs with
  | Except.error e => Except.error e
  | Except.ok st =>
    Except.ok (hourlyHeading place now tz host ++ st.out
      ++ summaryBlock st.mn st.mx st.rain)

/-- Source lines 205-241: the text block emitted for one daily sample. -/
def dailyBlock (tz host : Int) (d : DailySample) : String :=
  print_date tz host d.dt ++ ", Sunrise: " ++ print_sunrise tz host d.sunrise
    ++ ", Sunset: " ++ print_sunset tz host d.sunset ++ "\n"
  ++ "    Prevailing conditions:    " ++ d.description ++ ", wind speed: "
    ++ toString (windKph d.wind_speed) ++ "kph\n"
  ++ "    Temperatures:             Max " ++ padTo 3 (toString (pyRound d.temp_max))
    ++ "°C,    Min " ++ padTo 3 (toString (pyRound d.temp_min)) ++ "°C\n"
  ++ "    day/night/evening/morning " ++ padTo 3 (toString (pyRound d.temp_day))
    ++ "°C,  " ++ padTo 3 (toString (pyRound d.temp_night))
    ++ "°C,  " ++ padTo 3 (toString (pyRound d.temp_eve))
    ++ "°C,  " ++ padTo 3 (toString (pyRound d.temp_morn)) ++ "°C\n"
  ++ "    Feels like                " ++ padTo 3 (toString (pyRound d.fl_day))
    ++ "°C,  " ++ padTo 3 (toString (pyRound d.fl_night))
    ++ "°C,  " ++ padTo 3 (toString (pyRound d.fl_eve))
    ++ "°C,  " ++ padTo 3 (toString (pyRound d.fl_morn)) ++ "°C\n"
  ++ "\n"

/-- Source line 203: `for i in range(0, DAYS)` with fallible indexing. -/
def dailyLoopAux (tz host : Int) (ds : List DailySample) :
    Nat → Nat → String → Except String String
  | _, 0, acc => Except.ok acc
  | i, Nat.succ fuel, acc =>
    match pyIndexDaily ds i with
    | Except.error e => Except.error e
    | Except.ok d => dailyLoopAux tz host ds (i + 1) fuel (acc ++ dailyBlock tz host d)

/-- Source lines 194-241: the whole daily report document for one
location, or the `IndexError` the script would raise. -/
def renderDailyReport (place : String) (now tz host : Int)
    (ds : List DailySample) : Except String String :=
  match dailyLoopAux tz host ds 0 DAYS "" with
  | Except.error e => Except.error e
  | Except.ok body => Except.ok (dailyHeading place now tz host ++ body)

/-- One location's pass of the per-location loop (lines 117-241): both
reports, sharing the run-scoped host offset and clock reading. -/
def runReportsForLocation (place : String) (now tz host : Int)
    (hs : List HourlySample) (ds : List DailySample) :
    Except String String × Except String String :=
  (renderHourlyReport place now tz host hs,
   renderDailyReport place now tz host ds)

/-! ## Helper lemmas -/

/-- Two `fromtimestamp`-style decompositions agree whenever the shifted
epoch values agree. -/
theorem datetimeFromTimestamp_shift (h1 h2 t1 t2 : Int)
    (e : t1 + h1 = t2 + h2) :
    datetimeFromTimestamp h1 t1 = datetimeFromTimestamp h2 t2 := by
  unfold datetimeFromTimestamp
  rw [e]

/-- `Rat.floor` agrees with the `Int.floor` of the order structure. -/
theorem ratFloor_eq_floor (q : Rat) : q.floor = ⌊q⌋ :=
  (Rat.floor_def' q).trans Rat.floor_def.symm

/-- `pyRound` re-expressed through `Int.floor`, in a form the order lemmas
apply to. -/
theorem pyRound_def (q : Rat) :
    pyRound q = if q - ⌊q⌋ < 1 / 2 then ⌊q⌋
      else if 1 / 2 < q - ⌊q⌋ then ⌊q⌋ + 1
      else if ⌊q⌋ % 2 = 0 then ⌊q⌋ else ⌊q⌋ + 1 := by
  unfold pyRound
  rw [ratFloor_eq_floor]

theorem pyRound_ge_floor (q : Rat) : ⌊q⌋ ≤ pyRound q := by
  rw [pyRound_def]
  split_ifs <;> omega

theorem pyRound_le_floor_add_one (q : Rat) : pyRound q ≤ ⌊q⌋ + 1 := by
  rw [pyRound_def]
  split_ifs <;> omega

/-- Round-half-to-even is monotone. -/
theorem pyRound_mono {a b : Rat} (h : a ≤ b) : pyRound a ≤ pyRound b := by
  have hf : ⌊a⌋ ≤ ⌊b⌋ := Int.floor_le_floor h
  rcases eq_or_lt_of_le hf with heq | hlt
  · rw [pyRound_def, pyRound_def, ← heq]
    split_ifs <;> try omega
    all_goals linarith
  · calc pyRound a ≤ ⌊a⌋ + 1 := pyRound_le_floor_add_one a
      _ ≤ ⌊b⌋ := hlt
      _ ≤ pyRound b := pyRound_ge_floor b

theorem pyRound_intCast (n : Int) : pyRound (n : Rat) = n := by
  rw [pyRound_def]
  simp

/-- Round-half-to-even never strays more than half a unit. -/
theorem pyRound_abs_le (q : Rat) : |q - (pyRound q : Rat)| ≤ 1 / 2 := by
  have h1 : (⌊q⌋ : Rat) ≤ q := Int.floor_le q
  have h2 : q < ⌊q⌋ + 1 := Int.lt_floor_add_one q
  rw [pyRound_def]
  split_ifs with ha hb hc <;>
    rw [abs_le] <;> constructor <;> push_cast <;> linarith

/-- On an exact half, `pyRound` goes to the even neighbour. -/
theorem pyRound_half_add_int (n : Int) :
    pyRound ((n : Rat) + 1 / 2) = if n % 2 = 0 then n else n + 1 := by
  have hf : ⌊(n : Rat) + 1 / 2⌋ = n := by
    rw [Int.floor_int_add]
    norm_num
  rw [pyRound_def, hf]
  norm_num

theorem pyRound_one_half : pyRound (1 / 2) = 0 := by
  have hf : ⌊(1 / 2 : Rat)⌋ = 0 := by
    rw [Int.floor_eq_iff]
    norm_num
  rw [pyRound_def, hf]
  norm_num

theorem pyRound_three_halves : pyRound (3 / 2) = 2 := by
  have hf : ⌊(3 / 2 : Rat)⌋ = 1 := by
    rw [Int.floor_eq_iff]
    norm_num
  rw [pyRound_def, hf]
  norm_num

/-! ## Claim theorems -/

/-- Claim C1: every hourly and daily forecast timestamp (`dt`, `sunrise`,
`sunset`) is converted by computing the adjusted epoch value
`utcTimestamp + timezoneOffsetSeconds - hostOffsetSeconds` and decomposing
it with the host epoch-to-local-calendar primitive into weekday, day,
month, year, hour and minute fields; the host shift cancels, so the result
is exactly the civil decomposition of `utcTimestamp + tz` — a pure value,
correct for negative offsets and across day boundaries, independent of the
host's current date. -/
theorem sample_time_conversion_spec (dt tz host : Int) :
    hourly_location_time tz host dt = dt + tz - host
    ∧ hourlyPrintTimeFields tz host dt
        = datetimeFromTimestamp host (dt + tz - host)
    ∧ hourlyPrintTimeFields tz host dt = datetimeFromTimestamp 0 (dt + tz)
    ∧ dailyPrintDateFields tz host dt = datetimeFromTimestamp 0 (dt + tz)
    ∧ dailySunriseFields tz host dt = datetimeFromTimestamp 0 (dt + tz)
    ∧ dailySunsetFields tz host dt = datetimeFromTimestamp 0 (dt + tz)
    ∧ print_time tz host dt
        = formatLongDateTime (datetimeFromTimestamp 0 (dt + tz)) := by
  have hc : datetimeFromTimestamp host (dt + tz - host)
      = datetimeFromTimestamp 0 (dt + tz) :=
    datetimeFromTimestamp_shift host 0 (dt + tz - host) (dt + tz) (by ring)
  refine ⟨rfl, rfl, hc, hc, hc, hc, ?_⟩
  unfold print_time
  rw [show hourlyPrintTimeFields tz host dt
        = datetimeFromTimestamp 0 (dt + tz) from hc]

/-- Claim C3: the host offset is `baseOffset + 3600` when daylight saving
is in effect and `baseOffset + 0` otherwise, with `baseOffset = 3600` the
configured standard-time constant; both of a location's reports receive
that one frozen value as a read-only parameter. -/
theorem systemTimeUtcOffset_spec (dstInEffect : Bool) :
    systemTimeUtcOffset (if dstInEffect then 1 else 0)
        = SYSTEM_TIME_UTC_OFFSET_base + (if dstInEffect then 3600 else 0)
    ∧ SYSTEM_TIME_UTC_OFFSET_base = 3600
    ∧ ∀ (place : String) (now tz : Int) (hs : List HourlySample)
        (ds : List DailySample),
        runReportsForLocation place now tz
            (systemTimeUtcOffset (if dstInEffect then 1 else 0)) hs ds
          = (renderHourlyReport place now tz
               (systemTimeUtcOffset (if dstInEffect then 1 else 0)) hs,
             renderDailyReport place now tz
               (systemTimeUtcOffset (if dstInEffect then 1 else 0)) ds) := by
  refine ⟨?_, rfl, fun _ _ _ _ _ => rfl⟩
  cases dstInEffect <;> simp [systemTimeUtcOffset, SYSTEM_TIME_UTC_OFFSET_base]

/-- Claim C6: the header's UTC-offset literal renders
`round(timezoneOffsetSeconds / 3600)` followed by singular "hour" exactly
when the absolute offset is 3600 seconds, and plural "hours" in every
other case. -/
theorem UTC_hours_literal_spec (tz : Int) :
    (UTC_hours_literal tz = "hour" ↔ tz.natAbs = 3600)
    ∧ (UTC_hours_literal tz = "hours" ↔ tz.natAbs ≠ 3600)
    ∧ utcOffsetNumber tz = pyRound ((tz : Rat) / 3600)
    ∧ utcOffsetFragment tz
        = "(UTC Offset: " ++ toString (utcOffsetNumber tz) ++ " "
            ++ UTC_hours_literal tz ++ ")" := by
  have hne : ("hours" : String) ≠ "hour" := by decide
  have hne2 : ("hour" : String) ≠ "hours" := by decide
  refine ⟨?_, ?_, rfl, rfl⟩ <;> unfold UTC_hours_literal <;> split_ifs with h
  · exact ⟨fun _ => h, fun _ => rfl⟩
  · exact ⟨fun e => absurd e hne, fun e => absurd e h⟩
  · exact ⟨fun e => absurd e hne2, fun e => absurd h e⟩
  · exact ⟨fun _ => h, fun _ => rfl⟩

/-- Claim C7: the wind-speed conversion used by both reports is
`round(mps / 1000 * 3600)`; it sends 0 to 0 and 10 to 36, and is monotone
non-decreasing. -/
theorem windKph_spec (a b : Rat) (hab : a ≤ b) :
    windKph 0 = 0 ∧ windKph 10 = 36 ∧ windKph a ≤ windKph b := by
  refine ⟨?_, ?_, ?_⟩
  · have h0 : ((0 : Rat) / 1000 * 3600) = ((0 : Int) : Rat) := by norm_num
    unfold windKph
    rw [h0, pyRound_intCast]
  · have h10 : ((10 : Rat) / 1000 * 3600) = ((36 : Int) : Rat) := by norm_num
    unfold windKph
    rw [h10, pyRound_intCast]
  · unfold windKph
    exact pyRound_mono (by linarith)

/-- Witness for C7 at the concrete pair 0 ≤ 10. -/
theorem windKph_spec_witness : (0 : Rat) ≤ 10 ∧ windKph 0 ≤ windKph 10 :=
  ⟨by norm_num, (windKph_spec 0 10 (by norm_num)).2.2⟩

/-- Claim C9: the sample-time conversion is pure and deterministic — for a
fixed triple (timestamp, location offset, host offset) its calendar fields
do not depend on any ambient runtime state (wall clock, DST flag). -/
theorem toLocationLocalTime_deterministic (w1 w2 : World) (t tz host : Int) :
    toLocationLocalTime w1 t tz host = toLocationLocalTime w2 t tz host
    ∧ (toLocationLocalTime w1 t tz host).weekday
        = (toLocationLocalTime w2 t tz host).weekday
    ∧ (toLocationLocalTime w1 t tz host).day
        = (toLocationLocalTime w2 t tz host).day
    ∧ (toLocationLocalTime w1 t tz host).month
        = (toLocationLocalTime w2 t tz host).month
    ∧ (toLocationLocalTime w1 t tz host).year
        = (toLocationLocalTime w2 t tz host).year
    ∧ (toLocationLocalTime w1 t tz host).hour
        = (toLocationLocalTime w2 t tz host).hour
    ∧ (toLocationLocalTime w1 t tz host).minute
        = (toLocationLocalTime w2 t tz host).minute
    ∧ toLocationLocalTime w1 t tz host = hourlyPrintTimeFields tz host t :=
  ⟨rfl, rfl, rfl, rfl, rfl, rfl, rfl, rfl⟩

/-- Claim C10: every rounding at the output boundary goes through
`pyRound`, Python's builtin round, which is round-half-to-even: 1/2 rounds
to 0, 3/2 rounds to 2, every exact half goes to the even neighbour, the
error never exceeds half a unit, and the wind and UTC-offset header
conversions of both reports are `pyRound` compositions. -/
theorem rounding_mode_spec :
    pyRound (1 / 2) = 0 ∧ pyRound (3 / 2) = 2
    ∧ (∀ n : Int, pyRound ((n : Rat) + 1 / 2) = if n % 2 = 0 then n else n + 1)
    ∧ (∀ q : Rat, |q - (pyRound q : Rat)| ≤ 1 / 2)
    ∧ (∀ q : Rat, windKph q = pyRound (q / 1000 * 3600))
    ∧ (∀ tz : Int, utcOffsetNumber tz = pyRound ((tz : Rat) / 3600))
    ∧ (∀ mn mx : Rat, ∀ rain : Bool, summaryBlock mn mx rain
        = "\n" ++ "Summary: Minimum temperature: " ++ toString (pyRound mn)
          ++ "°C, maximum " ++ toString (pyRound mx) ++ "°C, "
          ++ precipLine rain) :=
  ⟨pyRound_one_half, pyRound_three_halves, pyRound_half_add_int,
   pyRound_abs_le, fun _ => rfl, fun _ => rfl, fun _ _ _ => rfl⟩

/-- Two-digit strings stay two digits below 100. -/
theorem pad2_length : ∀ n, n < 100 → (pad2 n).length = 2 := by decide

/-- The hour field of any decomposition is below 24. -/
theorem datetimeFromTimestamp_hour_lt (hostOffset t : Int) :
    (datetimeFromTimestamp hostOffset t).hour < 24 := by
  unfold datetimeFromTimestamp
  have he0 : (0 : Int) ≤ (t + hostOffset).emod 86400 :=
    Int.emod_nonneg _ (by norm_num)
  have he1 : (t + hostOffset).emod 86400 < 86400 :=
    Int.emod_lt_of_pos _ (by norm_num)
  have hn : ((t + hostOffset).emod 86400).toNat < 86400 := by omega
  simp only
  rw [Nat.div_lt_iff_lt_mul (by norm_num)]
  omega

/-- The minute field of any decomposition is below 60. -/
theorem datetimeFromTimestamp_minute_lt (hostOffset t : Int) :
    (datetimeFromTimestamp hostOffset t).minute < 60 := by
  unfold datetimeFromTimestamp
  have hm : ((t + hostOffset).emod 86400).toNat % 3600 < 3600 :=
    Nat.mod_lt _ (by norm_num)
  simp only
  rw [Nat.div_lt_iff_lt_mul (by norm_num)]
  omega

/-- Claim C2: the "generated at" header time follows the second arithmetic
path — host local clock reading plus the fractional-hour delta
`(tz - host) / 3600` — which collapses to the epoch value `now + tz -
host`; when the host clock reading equals `nowUTC + host`, the header
epoch is exactly the location's current local time `nowUTC + tz` (so
certainly within ±24 hours), it renders as a 24-hour `HH:MM` string, and
the hourly and daily headings embed the identical header string. -/
theorem generatedAt_header_spec (place : String)
    (nowHostLocal nowUTC tz host : Int) (h : nowHostLocal = nowUTC + host) :
    generatedAtEpoch nowHostLocal tz host = ((nowUTC + tz : Int) : Rat)
    ∧ |generatedAtEpoch nowHostLocal tz host - ((nowUTC + tz : Int) : Rat)|
        ≤ 24 * 3600
    ∧ filesGeneratedTime nowHostLocal tz host = renderHM (nowUTC + tz)
    ∧ (∃ hh mm, hh < 24 ∧ mm < 60 ∧ (pad2 hh).length = 2
        ∧ (pad2 mm).length = 2
        ∧ filesGeneratedTime nowHostLocal tz host = pad2 hh ++ ":" ++ pad2 mm)
    ∧ (∃ g, hourlyHeading place nowHostLocal tz host
          = place ++ " Hourly Forecast.  Generated at " ++ g ++ " local time "
            ++ utcOffsetFragment tz ++ "\n\n"
        ∧ dailyHeading place nowHostLocal tz host
          = place ++ " Daily Forecast.  Generated at " ++ g ++ " local time "
            ++ utcOffsetFragment tz ++ "\n\n") := by
  have key : generatedAtEpoch nowHostLocal tz host = ((nowUTC + tz : Int) : Rat) := by
    unfold generatedAtEpoch locationTimeOffsetHours
    rw [h]
    rw [div_mul_cancel₀ ((tz : Rat) - (host : Rat)) (by norm_num)]
    push_cast
    ring
  refine ⟨key, ?_, ?_, ?_, ⟨filesGeneratedTime nowHostLocal tz host, rfl, rfl⟩⟩
  · rw [key]
    simp
  · unfold filesGeneratedTime
    rw [key, Int.floor_intCast]
  · unfold filesGeneratedTime renderHM formatHM
    refine ⟨(datetimeFromTimestamp 0 ⌊generatedAtEpoch nowHostLocal tz host⌋).hour,
      (datetimeFromTimestamp 0 ⌊generatedAtEpoch nowHostLocal tz host⌋).minute,
      datetimeFromTimestamp_hour_lt 0 _, datetimeFromTimestamp_minute_lt 0 _,
      ?_, ?_, rfl⟩
    · exact pad2_length _ (by
        have := datetimeFromTimestamp_hour_lt 0
          ⌊generatedAtEpoch nowHostLocal tz host⌋
        omega)
    · exact pad2_length _ (by
        have := datetimeFromTimestamp_minute_lt 0
          ⌊generatedAtEpoch nowHostLocal tz host⌋
        omega)

/-- Witness for C2 at a concrete call moment: host CET (3600), location
offset -3600, host clock reading 3600 = UTC 0 plus the host offset. -/
theorem generatedAt_header_spec_witness :
    (3600 : Int) = 0 + 3600
    ∧ generatedAtEpoch 3600 (-3600) 3600 = ((0 + -3600 : Int) : Rat) :=
  ⟨by norm_num, (generatedAt_header_spec "Kesten" 3600 0 (-3600) 3600 (by norm_num)).1⟩

/-- In-bounds indexing succeeds. -/
theorem pyIndex_ok (hs : List HourlySample) (i : Nat) (hi : i < hs.length) :
    pyIndex hs i = Except.ok (hs.get ⟨i, hi⟩) := by
  unfold pyIndex
  rw [(List.get?_eq_getElem? hs i).trans (List.getElem?_eq_getElem hi)]
  rfl

/-- Out-of-bounds indexing raises. -/
theorem pyIndex_error (hs : List HourlySample) (i : Nat) (hi : hs.length ≤ i) :
    pyIndex hs i = Except.error "IndexError: list index out of range" := by
  unfold pyIndex
  rw [List.get?_eq_none.mpr hi]

/-- In-bounds indexing succeeds (daily array). -/
theorem pyIndexDaily_ok (ds : List DailySample) (i : Nat) (hi : i < ds.length) :
    pyIndexDaily ds i = Except.ok (ds.get ⟨i, hi⟩) := by
  unfold pyIndexDaily
  rw [(List.get?_eq_getElem? ds i).trans (List.getElem?_eq_getElem hi)]
  rfl

/-- Out-of-bounds indexing raises (daily array). -/
theorem pyIndexDaily_error (ds : List DailySample) (i : Nat) (hi : ds.length ≤ i) :
    pyIndexDaily ds i = Except.error "IndexError: list index out of range" := by
  unfold pyIndexDaily
  rw [List.get?_eq_none.mpr hi]

/-- When every index it will touch is in bounds, the hourly loop is the
pure fold of its body over the corresponding slice. -/
theorem hourlyLoopAux_ok (tz host : Int) (hs : List HourlySample) :
    ∀ (fuel i : Nat) (st : HourlyState), i + fuel ≤ hs.length →
      hourlyLoopAux tz host hs i fuel st
        = Except.ok (((hs.drop i).take fuel).foldl
            (fun acc s => hourlyBody tz host s acc) st) := by
  intro fuel
  induction fuel with
  | zero =>
    intro i st _
    simp [hourlyLoopAux]
  | succ fuel ih =>
    intro i st h
    have hi : i < hs.length := by omega
    rw [show hourlyLoopAux tz host hs i (Nat.succ fuel) st
          = match pyIndex hs i with
            | Except.error e => Except.error e
            | Except.ok s => hourlyLoopAux tz host hs (i + 1) fuel
                (hourlyBody tz host s st) from rfl]
    rw [pyIndex_ok hs i hi]
    rw [List.drop_eq_getElem_cons hi, List.take_succ_cons, List.foldl_cons]
    exact ih (i + 1) (hourlyBody tz host (hs.get ⟨i, hi⟩) st) (by omega)

/-- When the list is too short for the remaining iterations, the hourly
loop raises. -/
theorem hourlyLoopAux_error (tz host : Int) (hs : List HourlySample) :
    ∀ (fuel i : Nat) (st : HourlyState), i ≤ hs.length →
      hs.length < i + fuel →
      ∃ e, hourlyLoopAux tz host hs i fuel st = Except.error e := by
  intro fuel
  induction fuel with
  | zero =>
    intro i st h1 h2
    omega
  | succ fuel ih =>
    intro i st h1 h2
    rw [show hourlyLoopAux tz host hs i (Nat.succ fuel) st
          = match pyIndex hs i with
            | Except.error e => Except.error e
            | Except.ok s => hourlyLoopAux tz host hs (i + 1) fuel
                (hourlyBody tz host s st) from rfl]
    by_cases hi : i < hs.length
    · rw [pyIndex_ok hs i hi]
      exact ih (i + 1) _ (by omega) (by omega)
    · rw [pyIndex_error hs i (by omega)]
      exact ⟨_, rfl⟩

/-- Same unrolling for the daily loop. -/
theorem dailyLoopAux_error (tz host : Int) (ds : List DailySample) :
    ∀ (fuel i : Nat) (acc : String), i ≤ ds.length →
      ds.length < i + fuel →
      ∃ e, dailyLoopAux tz host ds i fuel acc = Except.error e := by
  intro fuel
  induction fuel with
  | zero =>
    intro i acc h1 h2
    omega
  | succ fuel ih =>
    intro i acc h1 h2
    rw [show dailyLoopAux tz host ds i (Nat.succ fuel) acc
          = match pyIndexDaily ds i with
            | Except.error e => Except.error e
            | Except.ok d => dailyLoopAux tz host ds (i + 1) fuel
                (acc ++ dailyBlock tz host d) from rfl]
    by_cases hi : i < ds.length
    · rw [pyIndexDaily_ok ds i hi]
      exact ih (i + 1) _ (by omega) (by omega)
    · rw [pyIndexDaily_error ds i (by omega)]
      exact ⟨_, rfl⟩

/-- A payload with at least 48 hourly samples scans to the pure fold over
its first 48 samples, seeded from sample 0. -/
theorem hourlyScan_ok (tz host : Int) (hs : List HourlySample)
    (h : HOURS ≤ hs.length) (h0 : 0 < hs.length) :
    hourlyScan tz host hs
      = Except.ok ((hs.take HOURS).foldl (fun acc s => hourlyBody tz host s acc)
          { out := "", rain := false, mn := (hs.get ⟨0, h0⟩).temp,
            mx := (hs.get ⟨0, h0⟩).temp }) := by
  unfold hourlyScan
  rw [pyIndex_ok hs 0 h0]
  have hrun := hourlyLoopAux_ok tz host hs HOURS 0
    { out := "", rain := false, mn := (hs.get ⟨0, h0⟩).temp,
      mx := (hs.get ⟨0, h0⟩).temp } (by omega)
  rw [List.drop_zero] at hrun
  exact hrun

/-- A payload with fewer than 48 hourly samples makes the scan raise. -/
theorem hourlyScan_error (tz host : Int) (hs : List HourlySample)
    (hh : hs.length < HOURS) :
    ∃ e, hourlyScan tz host hs = Except.error e := by
  unfold hourlyScan
  by_cases h0 : 0 < hs.length
  · rw [pyIndex_ok hs 0 h0]
    exact hourlyLoopAux_error tz host hs HOURS 0 _ (by omega) (by omega)
  · rw [pyIndex_error hs 0 (by omega)]
    exact ⟨_, rfl⟩

/-- The flag component of the fold: true exactly when the initial flag was
set or some processed sample has condition code below 700. -/
theorem foldl_hourlyBody_rain (tz host : Int) :
    ∀ (l : List HourlySample) (st : HourlyState),
      (l.foldl (fun acc s => hourlyBody tz host s acc) st).rain
        = (st.rain || l.any (fun s => decide (s.weather_id < 700))) := by
  intro l
  induction l with
  | nil =>
    intro st
    simp
  | cons s t ih =>
    intro t0
    rw [List.foldl_cons, ih, List.any_cons]
    by_cases hc : s.weather_id < 700 <;>
      simp [hourlyBody, hc, Bool.or_assoc, Bool.or_comm]

/-- The body updates the running minimum exactly as `min`. -/
theorem hourlyBody_mn (tz host : Int) (s : HourlySample) (st : HourlyState) :
    (hourlyBody tz host s st).mn = min st.mn s.temp := by
  simp only [hourlyBody]
  rw [min_def]
  split_ifs <;> first | rfl | linarith

/-- The body updates the running maximum exactly as `max`. -/
theorem hourlyBody_mx (tz host : Int) (s : HourlySample) (st : HourlyState) :
    (hourlyBody tz host s st).mx = max st.mx s.temp := by
  simp only [hourlyBody]
  rw [max_def]
  split_ifs <;> first | rfl | linarith

/-- The minimum component of the fold is a `min`-fold over the
temperatures. -/
theorem foldl_hourlyBody_mn (tz host : Int) :
    ∀ (l : List HourlySample) (st : HourlyState),
      (l.foldl (fun acc s => hourlyBody tz host s acc) st).mn
        = (l.map (fun s => s.temp)).foldl min st.mn := by
  intro l
  induction l with
  | nil =>
    intro st
    simp
  | cons s t ih =>
    intro st
    rw [List.foldl_cons, ih, List.map_cons, List.foldl_cons, hourlyBody_mn]

/-- The maximum component of the fold is a `max`-fold over the
temperatures. -/
theorem foldl_hourlyBody_mx (tz host : Int) :
    ∀ (l : List HourlySample) (st : HourlyState),
      (l.foldl (fun acc s => hourlyBody tz host s acc) st).mx
        = (l.map (fun s => s.temp)).foldl max st.mx := by
  intro l
  induction l with
  | nil =>
    intro st
    simp
  | cons s t ih =>
    intro st
    rw [List.foldl_cons, ih, List.map_cons, List.foldl_cons, hourlyBody_mx]

/-- A `min`-fold never exceeds its seed. -/
theorem foldl_min_le_init : ∀ (l : List Rat) (a : Rat), l.foldl min a ≤ a := by
  intro l
  induction l with
  | nil =>
    intro a
    exact le_refl a
  | cons b t ih =>
    intro a
    exact (ih (min a b)).trans (min_le_left a b)

/-- A `min`-fold is a lower bound of the folded list. -/
theorem foldl_min_le_mem : ∀ (l : List Rat) (a x : Rat), x ∈ l →
    l.foldl min a ≤ x := by
  intro l
  induction l with
  | nil =>
    intro a x hx
    exact absurd hx (List.not_mem_nil x)
  | cons b t ih =>
    intro a x hx
    rcases List.mem_cons.mp hx with hb | ht
    · rw [List.foldl_cons, hb]
      exact (foldl_min_le_init t (min a b)).trans (min_le_right a b)
    · exact ih (min a b) x ht

/-- A `min`-fold returns its seed or a list element. -/
theorem foldl_min_eq_init_or_mem : ∀ (l : List Rat) (a : Rat),
    l.foldl min a = a ∨ l.foldl min a ∈ l := by
  intro l
  induction l with
  | nil =>
    intro a
    exact Or.inl rfl
  | cons b t ih =>
    intro a
    rw [List.foldl_cons]
    rcases ih (min a b) with h | h
    · rcases min_choice a b with hab | hab
      · exact Or.inl (h.trans hab)
      · exact Or.inr (List.mem_cons.mpr (Or.inl (h.trans hab)))
    · exact Or.inr (List.mem_cons.mpr (Or.inr h))

/-- A `max`-fold is at least its seed. -/
theorem le_foldl_max : ∀ (l : List Rat) (a : Rat), a ≤ l.foldl max a := by
  intro l
  induction l with
  | nil =>
    intro a
    exact le_refl a
  | cons b t ih =>
    intro a
    exact (le_max_left a b).trans (ih (max a b))

/-- A `max`-fold is an upper bound of the folded list. -/
theorem mem_le_foldl_max : ∀ (l : List Rat) (a x : Rat), x ∈ l →
    x ≤ l.foldl max a := by
  intro l
  induction l with
  | nil =>
    intro a x hx
    exact absurd hx (List.not_mem_nil x)
  | cons b t ih =>
    intro a x hx
    rcases List.mem_cons.mp hx with hb | ht
    · rw [List.foldl_cons, hb]
      exact (le_max_right a b).trans (le_foldl_max t (max a b))
    · exact ih (max a b) x ht

/-- A `max`-fold returns its seed or a list element. -/
theorem foldl_max_eq_init_or_mem : ∀ (l : List Rat) (a : Rat),
    l.foldl max a = a ∨ l.foldl max a ∈ l := by
  intro l
  induction l with
  | nil =>
    intro a
    exact Or.inl rfl
  | cons b t ih =>
    intro a
    rw [List.foldl_cons]
    rcases ih (max a b) with h | h
    · rcases max_choice a b with hab | hab
      · exact Or.inl (h.trans hab)
      · exact Or.inr (List.mem_cons.mpr (Or.inl (h.trans hab)))
    · exact Or.inr (List.mem_cons.mpr (Or.inr h))

/-- Claim C4: after scanning a well-formed payload (≥ 48 hourly samples),
the precipitation flag is true iff some of the first 48 samples has
condition code strictly below 700, false iff all have code at least 700,
and the summary line announces precipitation exactly when the flag is
true. -/
theorem precipitation_flag_spec (tz host : Int) (hs : List HourlySample)
    (h : 48 ≤ hs.length) :
    ∃ st, hourlyScan tz host hs = Except.ok st
      ∧ (st.rain = true ↔ ∃ i, ∃ hi : i < 48,
          (hs.get ⟨i, lt_of_lt_of_le hi h⟩).weather_id < 700)
      ∧ (st.rain = false ↔ ∀ i, ∀ hi : i < 48,
          700 ≤ (hs.get ⟨i, lt_of_lt_of_le hi h⟩).weather_id)
      ∧ (precipLine st.rain = "Rain (or snow) expected!\n" ↔ st.rain = true) := by
  have h0 : 0 < hs.length := by omega
  have hscan := hourlyScan_ok tz host hs (by unfold HOURS; omega) h0
  have hlen : (hs.take HOURS).length = 48 := by
    rw [List.length_take]
    unfold HOURS
    omega
  set st := (hs.take HOURS).foldl (fun acc s => hourlyBody tz host s acc)
    { out := "", rain := false, mn := (hs.get ⟨0, h0⟩).temp,
      mx := (hs.get ⟨0, h0⟩).temp } with hst
  have hrain : st.rain
      = (hs.take HOURS).any (fun s => decide (s.weather_id < 700)) := by
    rw [hst, foldl_hourlyBody_rain]
    simp
  have hiff1 : st.rain = true ↔ ∃ i, ∃ hi : i < 48,
      (hs.get ⟨i, lt_of_lt_of_le hi h⟩).weather_id < 700 := by
    rw [hrain, List.any_eq_true]
    constructor
    · rintro ⟨x, hxmem, hpx⟩
      obtain ⟨i, hi2, hxi⟩ := List.mem_iff_getElem.mp hxmem
      have hi48 : i < 48 := by omega
      refine ⟨i, hi48, ?_⟩
      have hgx : (hs.take HOURS).get ⟨i, hi2⟩
          = hs.get ⟨i, lt_of_lt_of_le hi48 h⟩ := by
        rw [List.get_eq_getElem, List.get_eq_getElem]
        exact List.getElem_take hs
      have hx : hs.get ⟨i, lt_of_lt_of_le hi48 h⟩ = x := by
        rw [← hgx, List.get_eq_getElem]
        exact hxi
      rw [hx]
      exact of_decide_eq_true hpx
    · rintro ⟨i, hi, hw⟩
      have hi2 : i < (hs.take HOURS).length := by omega
      refine ⟨(hs.take HOURS).get ⟨i, hi2⟩,
        (by rw [List.get_eq_getElem]; exact List.getElem_mem hi2), ?_⟩
      have hgx : (hs.take HOURS).get ⟨i, hi2⟩
          = hs.get ⟨i, lt_of_lt_of_le hi h⟩ := by
        rw [List.get_eq_getElem, List.get_eq_getElem]
        exact List.getElem_take hs
      rw [hgx]
      exact decide_eq_true hw
  refine ⟨st, hscan, hiff1, ?_, ?_⟩
  · have hfalse : st.rain = false ↔ ¬ (st.rain = true) := by
      cases st.rain <;> simp
    rw [hfalse, hiff1]
    push_neg
    constructor
    · intro hno i hi
      exact hno i hi
    · intro hall i hi
      exact hall i hi
  · cases hr : st.rain
    · exact ⟨fun e => absurd e (by decide), fun e => nomatch e⟩
    · exact ⟨fun _ => rfl, fun _ => rfl⟩

/-- Claim C5: after the hourly scan, the accumulated minimum is below and
the accumulated maximum above every one of the 48 sample temperatures, and
scanning any permutation of the samples — seeded from its own sample 0 and
updated by strict comparison — produces the same min/max pair. -/
theorem minmax_spec (tz host : Int) (hs hs2 : List HourlySample)
    (h : hs.length = 48) (hp : hs2.Perm hs) :
    ∃ st st2, hourlyScan tz host hs = Except.ok st
      ∧ hourlyScan tz host hs2 = Except.ok st2
      ∧ (∀ i, ∀ hi : i < 48, st.mn ≤ (hs.get ⟨i, by omega⟩).temp
          ∧ (hs.get ⟨i, by omega⟩).temp ≤ st.mx)
      ∧ st2.mn = st.mn ∧ st2.mx = st.mx := by
  have hlen2 : hs2.length = 48 := hp.length_eq.trans h
  have h0 : 0 < hs.length := by omega
  have h02 : 0 < hs2.length := by omega
  have hscan := hourlyScan_ok tz host hs (by unfold HOURS; omega) h0
  have hscan2 := hourlyScan_ok tz host hs2 (by unfold HOURS; omega) h02
  have hhours : HOURS = hs.length := by unfold HOURS; omega
  have hhours2 : HOURS = hs2.length := by unfold HOURS; omega
  rw [hhours, List.take_length] at hscan
  rw [hhours2, List.take_length] at hscan2
  set a := (hs.get ⟨0, h0⟩).temp with ha
  set a2 := (hs2.get ⟨0, h02⟩).temp with ha2
  set T := hs.map (fun s => s.temp) with hT
  set T2 := hs2.map (fun s => s.temp) with hT2
  set st := hs.foldl (fun acc s => hourlyBody tz host s acc)
    { out := "", rain := false, mn := a, mx := a } with hst
  set st2 := hs2.foldl (fun acc s => hourlyBody tz host s acc)
    { out := "", rain := false, mn := a2, mx := a2 } with hst2
  have hmn : st.mn = T.foldl min a := by
    rw [hst, foldl_hourlyBody_mn]
  have hmx : st.mx = T.foldl max a := by
    rw [hst, foldl_hourlyBody_mx]
  have hmn2 : st2.mn = T2.foldl min a2 := by
    rw [hst2, foldl_hourlyBody_mn]
  have hmx2 : st2.mx = T2.foldl max a2 := by
    rw [hst2, foldl_hourlyBody_mx]
  have haT : a ∈ T := by
    rw [ha, hT]
    exact List.mem_map_of_mem _ (by rw [List.get_eq_getElem]; exact List.getElem_mem h0)
  have haT2 : a2 ∈ T2 := by
    rw [ha2, hT2]
    exact List.mem_map_of_mem _ (by rw [List.get_eq_getElem]; exact List.getElem_mem h02)
  have hpermT : T2.Perm T := hp.map _
  have hminmem : T.foldl min a ∈ T := by
    rcases foldl_min_eq_init_or_mem T a with e | e
    · rw [e]; exact haT
    · exact e
  have hminmem2 : T2.foldl min a2 ∈ T2 := by
    rcases foldl_min_eq_init_or_mem T2 a2 with e | e
    · rw [e]; exact haT2
    · exact e
  have hmaxmem : T.foldl max a ∈ T := by
    rcases foldl_max_eq_init_or_mem T a with e | e
    · rw [e]; exact haT
    · exact e
  have hmaxmem2 : T2.foldl max a2 ∈ T2 := by
    rcases foldl_max_eq_init_or_mem T2 a2 with e | e
    · rw [e]; exact haT2
    · exact e
  refine ⟨st, st2, hscan, hscan2, ?_, ?_, ?_⟩
  · intro i hi
    have hmemT : (hs.get ⟨i, by omega⟩).temp ∈ T := by
      rw [hT]
      exact List.mem_map_of_mem _
        (by rw [List.get_eq_getElem]; exact List.getElem_mem (by omega))
    constructor
    · rw [hmn]
      exact foldl_min_le_mem T a _ hmemT
    · rw [hmx]
      exact mem_le_foldl_max T a _ hmemT
  · rw [hmn, hmn2]
    exact le_antisymm
      (foldl_min_le_mem T2 a2 _ (hpermT.mem_iff.mpr hminmem))
      (foldl_min_le_mem T a _ (hpermT.mem_iff.mp hminmem2))
  · rw [hmx, hmx2]
    exact le_antisymm
      (mem_le_foldl_max T a _ (hpermT.mem_iff.mp hmaxmem2))
      (mem_le_foldl_max T2 a2 _ (hpermT.mem_iff.mpr hmaxmem))

/-- Claim C8: whenever the payload is short on either side — fewer than 48
hourly samples, or fewer than 8 daily samples, each independently — the
corresponding report raises an `IndexError` instead of truncating, so a
payload short on at least one side fails report generation loudly. -/
theorem short_payload_fails_spec (place : String) (now tz host : Int)
    (hs : List HourlySample) (ds : List DailySample) :
    (hs.length < 48 →
      ∃ e, renderHourlyReport place now tz host hs = Except.error e)
    ∧ (ds.length < 8 →
      ∃ e, renderDailyReport place now tz host ds = Except.error e)
    ∧ (hs.length < 48 ∨ ds.length < 8 →
      (∃ e, renderHourlyReport place now tz host hs = Except.error e)
      ∨ (∃ e, renderDailyReport place now tz host ds = Except.error e)) := by
  have hhourly : hs.length < 48 →
      ∃ e, renderHourlyReport place now tz host hs = Except.error e := by
    intro hh
    obtain ⟨e, he⟩ := hourlyScan_error tz host hs (by unfold HOURS; omega)
    refine ⟨e, ?_⟩
    unfold renderHourlyReport
    rw [he]
  have hdaily : ds.length < 8 →
      ∃ e, renderDailyReport place now tz host ds = Except.error e := by
    intro hd
    obtain ⟨e, he⟩ := dailyLoopAux_error tz host ds DAYS 0 ""
      (by omega) (by unfold DAYS; omega)
    refine ⟨e, ?_⟩
    unfold renderDailyReport
    rw [he]
  exact ⟨hhourly, hdaily, fun hor => hor.imp hhourly hdaily⟩

/-- A concrete clear-sky hourly sample used by witnesses. -/
def sampleClear : HourlySample :=
  { dt := 0, temp := 10, feels_like := 9, wind_speed := 5,
    weather_id := 800, description := "clear sky" }

/-- A concrete daily sample used by witnesses. -/
def sampleDay : DailySample :=
  { dt := 0, sunrise := 21600, sunset := 64800,
    temp_max := 12, temp_min := 4, temp_day := 10, temp_night := 5,
    temp_eve := 8, temp_morn := 6, fl_day := 9, fl_night := 4,
    fl_eve := 7, fl_morn := 5, wind_speed := 5, weather_id := 800,
    description := "clear sky" }

/-- Witness for C4: a 48-sample payload satisfies the hypothesis and the
scan succeeds. -/
theorem precipitation_flag_spec_witness :
    48 ≤ (List.replicate 48 sampleClear).length
    ∧ ∃ st, hourlyScan 0 3600 (List.replicate 48 sampleClear)
        = Except.ok st := by
  refine ⟨by simp, ?_⟩
  obtain ⟨st, h1, -, -, -⟩ :=
    precipitation_flag_spec 0 3600 (List.replicate 48 sampleClear) (by simp)
  exact ⟨st, h1⟩

/-- Witness for C5: the identity permutation of a 48-sample payload. -/
theorem minmax_spec_witness :
    (List.replicate 48 sampleClear).length = 48
    ∧ ∃ st st2, hourlyScan 0 3600 (List.replicate 48 sampleClear)
        = Except.ok st
      ∧ hourlyScan 0 3600 (List.replicate 48 sampleClear) = Except.ok st2
      ∧ st2.mn = st.mn := by
  refine ⟨by simp, ?_⟩
  obtain ⟨st, st2, h1, h2, -, h4, -⟩ :=
    minmax_spec 0 3600 (List.replicate 48 sampleClear)
      (List.replicate 48 sampleClear) (by simp) (List.Perm.refl _)
  exact ⟨st, st2, h1, h2, h4⟩

/-- Witness for C8: a payload short on one side only — 48 hourly samples
but just 7 daily samples — fails its daily report. -/
theorem short_payload_fails_spec_witness :
    (List.replicate 7 sampleDay).length < 8
    ∧ (∃ e, renderDailyReport "Kesten" 0 0 3600 (List.replicate 7 sampleDay)
        = Except.error e) := by
  refine ⟨by simp, ?_⟩
  exact (short_payload_fails_spec "Kesten" 0 0 3600
    (List.replicate 48 sampleClear) (List.replicate 7 sampleDay)).2.1 (by simp)
